import Mathlib

/-!
# Tunnel handlers of the Sliver implant (`sliver/handlers/generic-tun-handlers.go`)

A shallow embedding of the four tunnel handlers, of the two forwarding
goroutines they start and of `dataWrapper.Write`.

* Handlers are state transformers on a `World`: the connection (its tunnel
  registry and everything sent on `connection.Send`) together with a trace of
  the side-effecting calls made so far (`RemoveTunnel`, `AddTunnel`, `Close`,
  `Write`, channel sends), in program order.
* Stream objects (`io.ReadCloser`, `io.WriteCloser`, `net.Conn`) are
  represented by their identity, a natural number; two fields holding the same
  object hold the same number.
* The protobuf package (`pb`, `proto.Marshal`, `proto.Unmarshal`) and the
  operating system (`shell`, `net.Dial`) are parameters (`Pb`, `Env`).
* A goroutine is run on the list of results its successive `Read` calls return;
  when the list is used up the goroutine is blocked in `Read`.
-/

namespace Sliver

/-- Byte slices; every element stands for one byte. -/
abbrev Bytes := List Nat

/-- Go `error` values that the handlers tell apart: the sentinel `io.EOF` and
everything else. `Option GoError` is a Go `error`, `none` being `nil`. -/
inductive GoError where
  | EOF
  | other (msg : String)
  deriving DecidableEq, Repr

/-- Size of the buffer handed to `Read` by the shell forwarding goroutine. -/
def readBufSize : Nat := 1024

/-- The `pb.Envelope` fields used by the handlers. -/
structure Envelope where
  ID : Nat
  Type' : Nat
  Data : Bytes
  deriving DecidableEq, Repr

/-- The `pb.TunnelClose` message. -/
structure TunnelClose where
  TunnelID : Nat
  Err : String
  deriving DecidableEq, Repr

/-- The `pb.TunnelData` message. -/
structure TunnelData where
  TunnelID : Nat
  Data : Bytes
  deriving DecidableEq, Repr

/-- The `pb.ShellReq` message. -/
structure ShellReq where
  Path : String
  TunnelID : Nat
  EnablePTY : Bool
  deriving DecidableEq, Repr

/-- The `pb.PortFwdReq` message. -/
structure PortFwdReq where
  Host : String
  Port : Nat
  TunnelID : Nat
  deriving DecidableEq, Repr

/-- The `pb.Shell` response. -/
structure Shell where
  Success : Bool
  deriving DecidableEq, Repr

/-- The `pb.PortFwd` response. -/
structure PortFwd where
  Success : Bool
  deriving DecidableEq, Repr

/-- The protobuf package as the handlers use it: the four message-type codes
and `proto.Unmarshal` / `proto.Marshal` at each message type. `Unmarshal`
returns the state of the message it was given (reset, then filled as far as
decoding got) together with the error; `Marshal` returns the bytes and the
error. -/
structure Pb where
  MsgShellReq : Nat
  MsgPortfwdReq : Nat
  MsgTunnelData : Nat
  MsgTunnelClose : Nat
  unmarshalTunnelClose : Bytes → TunnelClose × Option GoError
  unmarshalTunnelData : Bytes → TunnelData × Option GoError
  unmarshalShellReq : Bytes → ShellReq × Option GoError
  unmarshalPortFwdReq : Bytes → PortFwdReq × Option GoError
  marshalTunnelData : TunnelData → Bytes × Option GoError
  marshalTunnelClose : TunnelClose → Bytes × Option GoError
  marshalShell : Shell → Bytes × Option GoError
  marshalPortFwd : PortFwd → Bytes × Option GoError

/-- The `transports.Tunnel` struct: an ID, and the identities of its reader
and writer objects. -/
structure Tunnel where
  ID : Nat
  Reader : Nat
  Writer : Nat
  deriving DecidableEq, Repr

/-- Modelled from the spec: the `transports.Connection` type, which is not
among the sources. It holds the tunnel registry and the outbound channel
`Send`; `Send` is the list of envelopes enqueued so far, oldest first. The
registry is a list of tunnels looked up by their `ID` field. -/
structure Connection where
  Send : List Envelope
  tunnels : List Tunnel
  deriving DecidableEq, Repr

/-- Modelled from the spec: `Connection.Tunnel`, the registry lookup
`lookupTunnel(id) → Tunnel|absent`, which is not among the sources. -/
def Connection.Tunnel (c : Connection) (ID : Nat) : Option Sliver.Tunnel :=
  c.tunnels.find? (fun t => t.ID == ID)

/-- Modelled from the spec: `Connection.AddTunnel`, which is not among the
sources; a second registration of an ID replaces the first (last write wins). -/
def Connection.AddTunnel (c : Connection) (tun : Sliver.Tunnel) : Connection :=
  { c with tunnels := tun :: c.tunnels.filter (fun t => t.ID != tun.ID) }

/-- Modelled from the spec: `Connection.RemoveTunnel`, which is not among the
sources; removing an ID that is not registered changes nothing. -/
def Connection.RemoveTunnel (c : Connection) (ID : Nat) : Connection :=
  { c with tunnels := c.tunnels.filter (fun t => t.ID != ID) }

/-- Side-effecting calls, as recorded in the trace. -/
inductive Event where
  | removeTunnel (ID : Nat)
  | addTunnel (tun : Tunnel)
  | close (stream : Nat)
  | write (stream : Nat) (p : Bytes)
  | send (e : Envelope)
  deriving DecidableEq, Repr

/-- A goroutine started by a handler (`go func() ...`). -/
inductive Goroutine where
  | shell (tunnel : Tunnel)
  | portfwd (tunnel : Tunnel) (conn : Nat)
  deriving DecidableEq, Repr

/-- Program state: the connection, the trace of calls in program order, and the
goroutines started so far. -/
structure World where
  conn : Connection
  trace : List Event
  goroutines : List Goroutine
  deriving DecidableEq, Repr

/-- The call `connection.RemoveTunnel(ID)`. -/
def World.RemoveTunnel (w : World) (ID : Nat) : World :=
  { w with conn := w.conn.RemoveTunnel ID, trace := w.trace ++ [Event.removeTunnel ID] }

/-- The call `connection.AddTunnel(tun)`. -/
def World.AddTunnel (w : World) (tun : Tunnel) : World :=
  { w with conn := w.conn.AddTunnel tun, trace := w.trace ++ [Event.addTunnel tun] }

/-- The statement `connection.Send <- e`. -/
def World.send (w : World) (e : Envelope) : World :=
  { w with conn := { w.conn with Send := w.conn.Send ++ [e] }, trace := w.trace ++ [Event.send e] }

/-- The call `stream.Close()`; its result is discarded by every caller. -/
def World.close (w : World) (stream : Nat) : World :=
  { w with trace := w.trace ++ [Event.close stream] }

/-- The call `stream.Write(p)`; its result is discarded by its only caller. -/
def World.write (w : World) (stream : Nat) (p : Bytes) : World :=
  { w with trace := w.trace ++ [Event.write stream p] }

/-- The statement `go func() ...`. -/
def World.go (w : World) (g : Goroutine) : World :=
  { w with goroutines := w.goroutines ++ [g] }

/-- The operating system as the handlers use it: `shell.GetSystemShellPath`,
`shell.StartInteractive` (giving the identities of the process's `Stdout` and
`Stdin`) and `net.Dial` (network, address), giving the socket or an error. -/
structure Env where
  GetSystemShellPath : String → String
  StartInteractive : Nat → String → Bool → Nat × Nat
  Dial : String → String → Nat ⊕ GoError

/-- The function `tunnelCloseHandler`: the error of `proto.Unmarshal` is
discarded and the lookup uses whatever the message holds. -/
def tunnelCloseHandler (P : Pb) (envelope : Envelope) (w : World) : World :=
  let tunnelClose := (P.unmarshalTunnelClose envelope.Data).1
  match w.conn.Tunnel tunnelClose.TunnelID with
  | some tunnel => ((w.RemoveTunnel tunnel.ID).close tunnel.Reader).close tunnel.Writer
  | none => w

/-- The function `tunnelDataHandler`: the error of `proto.Unmarshal` is
discarded and the lookup uses whatever the message holds. -/
def tunnelDataHandler (P : Pb) (envelope : Envelope) (w : World) : World :=
  let tunData := (P.unmarshalTunnelData envelope.Data).1
  match w.conn.Tunnel tunData.TunnelID with
  | some tunnel => w.write tunnel.Writer tunData.Data
  | none => w

/-- The closure `cleanup` of `shellReqHandler`. -/
def shellCleanup (P : Pb) (tunnel : Tunnel) (reason : String) (w : World) : World :=
  let w1 := w.RemoveTunnel tunnel.ID
  let tunnelClose := (P.marshalTunnelClose ⟨tunnel.ID, reason⟩).1
  w1.send ⟨0, P.MsgTunnelClose, tunnelClose⟩

/-- The function `shellReqHandler` up to the start of its goroutine. -/
def shellReqHandler (P : Pb) (E : Env) (envelope : Envelope) (w : World) : World :=
  let r := P.unmarshalShellReq envelope.Data
  let shellReq := r.1
  match r.2 with
  | some _ => w
  | none =>
    let shellPath := E.GetSystemShellPath shellReq.Path
    let systemShell := E.StartInteractive shellReq.TunnelID shellPath shellReq.EnablePTY
    let tunnel : Tunnel := ⟨shellReq.TunnelID, systemShell.1, systemShell.2⟩
    let w1 := w.AddTunnel tunnel
    let shellResp := (P.marshalShell ⟨true⟩).1
    let w2 := w1.send ⟨envelope.ID, 0, shellResp⟩
    w2.go (Goroutine.shell tunnel)

/-- One result of `Read(readBuf)`: `data` is `readBuf[:n]`, the `n` bytes the
reader stored (so `n = data.length`), and `err` is the returned error. -/
structure ReadResult where
  data : Bytes
  err : Option GoError
  deriving DecidableEq, Repr

/-- The goroutine of `shellReqHandler`, run on the results of its successive
`tunnel.Reader.Read` calls. The Boolean tells whether the goroutine has
returned; it is `false` when the results are used up and the goroutine is
blocked in the next `Read`. -/
def shellForward (P : Pb) (tunnel : Tunnel) : List ReadResult → World → Bool × World
  | [], w => (false, w)
  | r :: rs, w =>
    if r.err = some GoError.EOF then
      (true, shellCleanup P tunnel "EOF" w)
    else
      let data := (P.marshalTunnelData ⟨tunnel.ID, r.data⟩).1
      shellForward P tunnel rs (w.send ⟨0, P.MsgTunnelData, data⟩)

/-- The struct `dataWrapper`; its `conn` field is the connection of the
world. -/
structure dataWrapper where
  tunnel : Tunnel
  deriving DecidableEq, Repr

/-- The method `dataWrapper.Write`, returning `(n, err)` and the new state. -/
def dataWrapper.Write (P : Pb) (d : dataWrapper) (p : Bytes) (w : World) :
    (Nat × Option GoError) × World :=
  let n := p.length
  if n = 0 then
    ((n, some GoError.EOF), w)
  else
    let r := P.marshalTunnelData ⟨d.tunnel.ID, p⟩
    ((n, r.2), w.send ⟨0, P.MsgTunnelData, r.1⟩)

/-- The closure `cleanup` of `portfwdHandler`. -/
def portfwdCleanup (P : Pb) (tunnel : Tunnel) (conn : Nat) (w : World) : World :=
  let w1 := w.RemoveTunnel tunnel.ID
  let tunnelClose := (P.marshalTunnelClose ⟨tunnel.ID, "Error"⟩).1
  let w2 := w1.send ⟨0, P.MsgTunnelClose, tunnelClose⟩
  w2.close conn

/-- The function `portfwdHandler` up to the start of its goroutine. -/
def portfwdHandler (P : Pb) (E : Env) (envelope : Envelope) (w : World) : World :=
  let r := P.unmarshalPortFwdReq envelope.Data
  let pfwdReq := r.1
  match r.2 with
  | some _ => w
  | none =>
    match E.Dial "tcp" (pfwdReq.Host ++ ":" ++ toString pfwdReq.Port) with
    | Sum.inr _ => w
    | Sum.inl conn =>
      let tunnel : Tunnel := ⟨pfwdReq.TunnelID, conn, conn⟩
      let w1 := w.AddTunnel tunnel
      let pfwdResp := (P.marshalPortFwd ⟨true⟩).1
      let w2 := w1.send ⟨envelope.ID, 0, pfwdResp⟩
      w2.go (Goroutine.portfwd tunnel conn)

/-- The loop of the standard library's `io.Copy(wrapper, reader)`, run on the
results of the successive `Read` calls: a non-empty read is written, a write
error or a short write ends the loop, and so does any read error. -/
def copyLoop (P : Pb) (d : dataWrapper) : List ReadResult → World → Bool × World
  | [], w => (false, w)
  | r :: rs, w =>
    if r.data.length = 0 then
      if r.err.isSome then (true, w) else copyLoop P d rs w
    else
      let res := d.Write P r.data w
      if res.1.2.isSome then (true, res.2)
      else if res.1.1 ≠ r.data.length then (true, res.2)
      else if r.err.isSome then (true, res.2)
      else copyLoop P d rs res.2

/-- The goroutine of `portfwdHandler`: the copy loop, then the deferred
`cleanup`. -/
def portfwdForward (P : Pb) (tunnel : Tunnel) (conn : Nat) (reads : List ReadResult)
    (w : World) : Bool × World :=
  let res := copyLoop P ⟨tunnel⟩ reads w
  if res.1 then (true, portfwdCleanup P tunnel conn res.2) else res

/-- The table `tunnelHandlers` returned by `GetTunnelHandlers`. -/
def tunnelHandlers (P : Pb) (E : Env) (msgType : Nat) : Option (Envelope → World → World) :=
  if msgType = P.MsgShellReq then some (shellReqHandler P E)
  else if msgType = P.MsgPortfwdReq then some (portfwdHandler P E)
  else if msgType = P.MsgTunnelData then some (tunnelDataHandler P)
  else if msgType = P.MsgTunnelClose then some (tunnelCloseHandler P)
  else none

/-- The function `GetTunnelHandlers`. -/
def GetTunnelHandlers (P : Pb) (E : Env) : Nat → Option (Envelope → World → World) :=
  tunnelHandlers P E

/-- Appends the base-128 varint of `n`, least significant group first; `fuel`
bounds the number of continuation bytes. -/
def putVarint : Nat → Nat → Bytes
  | 0, n => [n % 128]
  | fuel + 1, n => if n < 128 then [n] else (n % 128 + 128) :: putVarint fuel (n / 128)

/-- Reads one base-128 varint of at most `fuel` bytes; `none` when the input
ends inside it or the varint is longer. When one byte is left (the tenth byte
of a 64-bit varint) it must be 0 or 1, else the value overflows 64 bits. -/
def getVarintAux : Nat → Bytes → Option (Nat × Bytes)
  | 0, _ => none
  | _ + 1, [] => none
  | fuel + 1, b :: bs =>
    if b < 128 then
      if fuel = 0 ∧ 1 < b then none else some (b, bs)
    else
      match getVarintAux fuel bs with
      | some (v, rest) => some (b - 128 + 128 * v, rest)
      | none => none

/-- Reads one varint of a 64-bit value: at most ten bytes. -/
def getVarint (b : Bytes) : Option (Nat × Bytes) := getVarintAux 10 b

/-- A decoded field value: wire type 0 (varint) or 2 (length-delimited). -/
inductive WireVal where
  | varint (v : Nat)
  | bytes (b : Bytes)
  deriving DecidableEq, Repr

/-- Reads one field (tag, then value); `none` on truncated input or on a wire
type other than 0 and 2. -/
def getField (b : Bytes) : Option ((Nat × WireVal) × Bytes) :=
  match getVarint b with
  | none => none
  | some (tag, rest) =>
    if tag % 8 = 0 then
      match getVarint rest with
      | some (v, r) => some ((tag / 8, WireVal.varint v), r)
      | none => none
    else if tag % 8 = 2 then
      match getVarint rest with
      | some (len, r) =>
        if len ≤ r.length then some ((tag / 8, WireVal.bytes (r.take len)), r.drop len) else none
      | none => none
    else none

/-- Decodes fields one after the other into the message `m`; on the first
field that cannot be read, what was decoded before stays in the message and an
error is returned. -/
def unmarshalWith {M : Type} (set : M → Nat → WireVal → Option M) :
    Nat → Bytes → M → M × Option GoError
  | _, [], m => (m, none)
  | 0, _ :: _, m => (m, some (GoError.other "unexpected EOF"))
  | fuel + 1, b :: bs, m =>
    match getField (b :: bs) with
    | none => (m, some (GoError.other "unexpected EOF"))
    | some ((f, v), rest) =>
      match set m f v with
      | some m1 => unmarshalWith set fuel rest m1
      | none => (m, some (GoError.other "bad wiretype"))

/-- A varint field; nothing is emitted for the zero value. -/
def putUint (field n : Nat) : Bytes :=
  if n = 0 then [] else putVarint 9 (field * 8) ++ putVarint 9 n

/-- A length-delimited field; nothing is emitted for the empty value. -/
def putBytes (field : Nat) (b : Bytes) : Bytes :=
  if b.length = 0 then [] else putVarint 9 (field * 8 + 2) ++ putVarint 9 b.length ++ b

/-- The bytes of a string of ASCII characters. -/
def strBytes (s : String) : Bytes := s.toList.map Char.toNat

/-- The string of a sequence of ASCII bytes. -/
def bytesStr (b : Bytes) : String := String.mk (b.map Char.ofNat)

/-- Field setter of `TunnelClose` (1: TunnelID, 2: Err); other fields are skipped. -/
def setTunnelClose (m : TunnelClose) : Nat → WireVal → Option TunnelClose
  | 1, WireVal.varint v => some { m with TunnelID := v }
  | 1, _ => none
  | 2, WireVal.bytes b => some { m with Err := bytesStr b }
  | 2, _ => none
  | _, _ => some m

/-- Field setter of `TunnelData` (1: TunnelID, 2: Data); other fields are skipped. -/
def setTunnelData (m : TunnelData) : Nat → WireVal → Option TunnelData
  | 1, WireVal.varint v => some { m with TunnelID := v }
  | 1, _ => none
  | 2, WireVal.bytes b => some { m with Data := b }
  | 2, _ => none
  | _, _ => some m

/-- Field setter of `ShellReq` (1: Path, 2: TunnelID, 3: EnablePTY). -/
def setShellReq (m : ShellReq) : Nat → WireVal → Option ShellReq
  | 1, WireVal.bytes b => some { m with Path := bytesStr b }
  | 1, _ => none
  | 2, WireVal.varint v => some { m with TunnelID := v }
  | 2, _ => none
  | 3, WireVal.varint v => some { m with EnablePTY := decide (v ≠ 0) }
  | 3, _ => none
  | _, _ => some m

/-- Field setter of `PortFwdReq` (1: Host, 2: Port, 3: TunnelID). -/
def setPortFwdReq (m : PortFwdReq) : Nat → WireVal → Option PortFwdReq
  | 1, WireVal.bytes b => some { m with Host := bytesStr b }
  | 1, _ => none
  | 2, WireVal.varint v => some { m with Port := v }
  | 2, _ => none
  | 3, WireVal.varint v => some { m with TunnelID := v }
  | 3, _ => none
  | _, _ => some m

/-- An instance of the protobuf package used to run the handlers on concrete
inputs: the proto3 wire format restricted to varint and length-delimited
fields. The field numbers (declaration order) and the four type codes are
this instance's own: the `pb` package is not among the sources, and its
numbering may differ. What does not depend on the numbering: the empty
payload decodes without error to the zero message, and the payload `ff`
fails at its first byte, leaving the zero message. -/
def wirePb : Pb where
  MsgShellReq := 1
  MsgPortfwdReq := 2
  MsgTunnelData := 3
  MsgTunnelClose := 4
  unmarshalTunnelClose := fun b => unmarshalWith setTunnelClose b.length b ⟨0, ""⟩
  unmarshalTunnelData := fun b => unmarshalWith setTunnelData b.length b ⟨0, []⟩
  unmarshalShellReq := fun b => unmarshalWith setShellReq b.length b ⟨"", 0, false⟩
  unmarshalPortFwdReq := fun b => unmarshalWith setPortFwdReq b.length b ⟨"", 0, 0⟩
  marshalTunnelData := fun m => (putUint 1 m.TunnelID ++ putBytes 2 m.Data, none)
  marshalTunnelClose := fun m => (putUint 1 m.TunnelID ++ putBytes 2 (strBytes m.Err), none)
  marshalShell := fun m => (putUint 1 (if m.Success then 1 else 0), none)
  marshalPortFwd := fun m => (putUint 1 (if m.Success then 1 else 0), none)

/-- An operating system whose shell has streams 10 (stdout) and 11 (stdin) and
whose dial always yields socket 20. -/
def sampleEnv : Env where
  GetSystemShellPath := fun p => if p = "" then "/bin/sh" else p
  StartInteractive := fun _ _ _ => (10, 11)
  Dial := fun _ _ => Sum.inl 20

/-- A state with nothing registered and nothing sent. -/
def emptyWorld : World := ⟨⟨[], []⟩, [], []⟩

/-- The calls made between state `w` and a later state `w1`. -/
def newEvents (w w1 : World) : List Event := w1.trace.drop w.trace.length

/-- The envelopes enqueued on `Send` between state `w` and a later state `w1`. -/
def newSent (w w1 : World) : List Envelope := w1.conn.Send.drop w.conn.Send.length

/-- The tunnel-data envelope the shell goroutine builds from the bytes of one read. -/
def dataFrame (P : Pb) (tunnel : Tunnel) (data : Bytes) : Envelope :=
  ⟨0, P.MsgTunnelData, (P.marshalTunnelData ⟨tunnel.ID, data⟩).1⟩

/-- The tunnel-close envelope built by the shell goroutine's `cleanup`. -/
def closeFrame (P : Pb) (tunnel : Tunnel) (reason : String) : Envelope :=
  ⟨0, P.MsgTunnelClose, (P.marshalTunnelClose ⟨tunnel.ID, reason⟩).1⟩

/-- A state in which tunnel 7 of a shell is registered (streams 10 and 11). -/
def shellWorld : World := ⟨⟨[], [⟨7, 10, 11⟩]⟩, [], []⟩

/-- A state in which tunnel 7 of a port forward is registered; its reader and
writer are the same socket 20. A shell tunnel 8 is registered too. -/
def portfwdWorld : World := ⟨⟨[], [⟨7, 20, 20⟩, ⟨8, 10, 11⟩]⟩, [], []⟩

/-- A state in which tunnel 0 of a port forward is registered; its reader and
writer are the same socket 20. -/
def socketWorld : World := ⟨⟨[], [⟨0, 20, 20⟩]⟩, [], []⟩

/-- A state in which tunnel 0 of a shell is registered (streams 10 and 11). -/
def shellZeroWorld : World := ⟨⟨[], [⟨0, 10, 11⟩]⟩, [], []⟩

/-- Enqueues the envelopes of a list one after the other. -/
def sendAll (w : World) (es : List Envelope) : World := es.foldl World.send w

/-- The `Data` fields of the tunnel-data messages carried by the envelopes of
type `MsgTunnelData` in a list, in order. -/
def tunnelDataPayloads (P : Pb) (sent : List Envelope) : List Bytes :=
  (sent.filter (fun e => e.Type' == P.MsgTunnelData)).map
    (fun e => (P.unmarshalTunnelData e.Data).1.Data)

end Sliver

namespace Sliver

/-! ## The registry -/

theorem find?_filter_ID (l : List Tunnel) (i j : Nat) :
    (l.filter (fun t => t.ID != i)).find? (fun t => t.ID == j)
      = if j = i then none else l.find? (fun t => t.ID == j) := by
  induction l with
  | nil => simp
  | cons a l ih =>
    by_cases hai : a.ID = i
    · have e1 : (a.ID != i) = false := by simp [hai]
      rw [List.filter_cons, e1]
      simp only [Bool.false_eq_true, if_false]
      rw [ih, List.find?_cons]
      by_cases hji : j = i
      · simp [hji]
      · have e2 : (a.ID == j) = false := by
          simp only [beq_eq_false_iff_ne, ne_eq]
          intro h
          exact hji (h ▸ hai)
        simp [hji, e2]
    · have e1 : (a.ID != i) = true := by simp [hai]
      rw [List.filter_cons, e1]
      simp only [if_true]
      rw [List.find?_cons, List.find?_cons, ih]
      by_cases haj : a.ID = j
      · have e2 : (a.ID == j) = true := by simp [haj]
        have hji : ¬ j = i := fun h => hai (haj.trans h)
        simp [e2, hji]
      · have e2 : (a.ID == j) = false := by simp [haj]
        simp [e2]

/-- A tunnel found under an ID carries that ID. -/
theorem Tunnel_ID_eq {c : Connection} {i : Nat} {t : Tunnel} (h : c.Tunnel i = some t) :
    t.ID = i := by
  have h1 := List.find?_some h
  simpa using h1

/-- Lookup after `RemoveTunnel`. -/
theorem Tunnel_RemoveTunnel (c : Connection) (i j : Nat) :
    (c.RemoveTunnel i).Tunnel j = if j = i then none else c.Tunnel j :=
  find?_filter_ID c.tunnels i j

/-- Lookup after `AddTunnel`. -/
theorem Tunnel_AddTunnel (c : Connection) (t : Tunnel) (j : Nat) :
    (c.AddTunnel t).Tunnel j = if j = t.ID then some t else c.Tunnel j := by
  unfold Connection.AddTunnel Connection.Tunnel
  rw [List.find?_cons]
  by_cases h : j = t.ID
  · simp [h]
  · have e2 : (t.ID == j) = false := by
      simp only [beq_eq_false_iff_ne, ne_eq]
      exact fun e => h e.symm
    rw [e2, find?_filter_ID]
    simp [h]

/-! ## Traces -/

theorem newEvents_append (w w1 : World) (l : List Event) (h : w1.trace = w.trace ++ l) :
    newEvents w w1 = l := by
  unfold newEvents
  rw [h]
  exact List.drop_left _ _

theorem newSent_append (w w1 : World) (l : List Envelope) (h : w1.conn.Send = w.conn.Send ++ l) :
    newSent w w1 = l := by
  unfold newSent
  rw [h]
  exact List.drop_left _ _

theorem newEvents_self (w : World) : newEvents w w = [] :=
  newEvents_append w w [] (by simp)

theorem newSent_self (w : World) : newSent w w = [] :=
  newSent_append w w [] (by simp)

/-! ## `dataWrapper.Write` -/

/-- C5: for every `dataWrapper`, `Write` of a zero-length slice returns
`(0, io.EOF)` and leaves the state as it was, so nothing is enqueued on `Send`;
and for every slice `p`, every envelope that `Write(p)` enqueues is a
tunnel-data envelope encoding a message whose `Data` is not empty. -/
theorem dataWrapper_Write_empty (P : Pb) (d : dataWrapper) (w : World) :
    d.Write P [] w = ((0, some GoError.EOF), w) ∧
    newSent w (d.Write P [] w).2 = [] ∧
    ∀ (p : Bytes) (e : Envelope), e ∈ newSent w (d.Write P p w).2 →
      ∃ q : Bytes, q ≠ [] ∧
        e = ⟨0, P.MsgTunnelData, (P.marshalTunnelData ⟨d.tunnel.ID, q⟩).1⟩ := by
  refine ⟨rfl, newSent_self w, ?_⟩
  intro p e he
  cases p with
  | nil =>
    have h0 : newSent w (d.Write P [] w).2 = [] := newSent_self w
    rw [h0] at he
    cases he
  | cons a as =>
    have h1 : newSent w (d.Write P (a :: as) w).2
        = [⟨0, P.MsgTunnelData, (P.marshalTunnelData ⟨d.tunnel.ID, a :: as⟩).1⟩] := by
      apply newSent_append
      simp [dataWrapper.Write, World.send]
    rw [h1] at he
    refine ⟨a :: as, by simp, ?_⟩
    simpa using he

/-- C6: for every `dataWrapper` and every non-empty slice `p`, `Write(p)`
enqueues exactly one envelope, of type `MsgTunnelData`, whose payload is the
encoding of the message with the wrapper's tunnel ID and `Data = p`; it returns
`n = len(p)` and the error of the encoding, which is nil when encoding
succeeds; the registry is untouched. -/
theorem dataWrapper_Write_nonempty (P : Pb) (d : dataWrapper) (p : Bytes) (w : World)
    (hp : p ≠ []) :
    (d.Write P p w).1.1 = p.length ∧
    (d.Write P p w).1.2 = (P.marshalTunnelData ⟨d.tunnel.ID, p⟩).2 ∧
    ((P.marshalTunnelData ⟨d.tunnel.ID, p⟩).2 = none → (d.Write P p w).1.2 = none) ∧
    newSent w (d.Write P p w).2
      = [⟨0, P.MsgTunnelData, (P.marshalTunnelData ⟨d.tunnel.ID, p⟩).1⟩] ∧
    (d.Write P p w).2.conn.Send
      = w.conn.Send ++ [⟨0, P.MsgTunnelData, (P.marshalTunnelData ⟨d.tunnel.ID, p⟩).1⟩] ∧
    (d.Write P p w).2.conn.tunnels = w.conn.tunnels := by
  have hlen : p.length ≠ 0 := by
    intro h
    exact hp (List.length_eq_zero.mp h)
  have hs : (d.Write P p w).2.conn.Send
      = w.conn.Send ++ [⟨0, P.MsgTunnelData, (P.marshalTunnelData ⟨d.tunnel.ID, p⟩).1⟩] := by
    simp [dataWrapper.Write, World.send, hlen]
  refine ⟨?_, ?_, ?_, newSent_append _ _ _ hs, hs, ?_⟩
  · simp [dataWrapper.Write, hlen]
  · simp [dataWrapper.Write, hlen]
  · intro h
    simp [dataWrapper.Write, hlen, h]
  · simp [dataWrapper.Write, World.send, hlen]

/-- Witness of C6: the wrapper of tunnel 7 writing the two bytes `ab`. -/
theorem dataWrapper_Write_nonempty_witness :
    ([97, 98] : Bytes) ≠ [] ∧
    ((⟨⟨7, 20, 20⟩⟩ : dataWrapper).Write wirePb [97, 98] portfwdWorld).1.1 = 2 ∧
    ((⟨⟨7, 20, 20⟩⟩ : dataWrapper).Write wirePb [97, 98] portfwdWorld).1.2 = none ∧
    newSent portfwdWorld ((⟨⟨7, 20, 20⟩⟩ : dataWrapper).Write wirePb [97, 98] portfwdWorld).2
      = [⟨0, 3, [8, 7, 18, 2, 97, 98]⟩] :=
  have h := dataWrapper_Write_nonempty wirePb ⟨⟨7, 20, 20⟩⟩ [97, 98] portfwdWorld (by decide)
  ⟨by decide, h.1, h.2.1, h.2.2.2.1⟩

/-! ## `tunnelCloseHandler` -/

/-- The handler when the ID held by the message is not registered. -/
theorem tunnelCloseHandler_absent (P : Pb) (envelope : Envelope) (w : World)
    (h : w.conn.Tunnel (P.unmarshalTunnelClose envelope.Data).1.TunnelID = none) :
    tunnelCloseHandler P envelope w = w := by
  simp [tunnelCloseHandler, h]

/-- The handler when the ID held by the message is registered. -/
theorem tunnelCloseHandler_present (P : Pb) (envelope : Envelope) (w : World) (t : Tunnel)
    (h : w.conn.Tunnel (P.unmarshalTunnelClose envelope.Data).1.TunnelID = some t) :
    tunnelCloseHandler P envelope w
      = ⟨w.conn.RemoveTunnel t.ID,
         w.trace ++ [Event.removeTunnel t.ID, Event.close t.Reader, Event.close t.Writer],
         w.goroutines⟩ := by
  simp [tunnelCloseHandler, h, World.RemoveTunnel, World.close]

/-- Registry lookup after the handler: the ID held by the message is gone and
every other ID maps as before. -/
theorem tunnelCloseHandler_Tunnel (P : Pb) (envelope : Envelope) (w : World) (j : Nat) :
    (tunnelCloseHandler P envelope w).conn.Tunnel j
      = if j = (P.unmarshalTunnelClose envelope.Data).1.TunnelID then none
        else w.conn.Tunnel j := by
  cases h : w.conn.Tunnel (P.unmarshalTunnelClose envelope.Data).1.TunnelID with
  | none =>
    rw [tunnelCloseHandler_absent P envelope w h]
    by_cases hj : j = (P.unmarshalTunnelClose envelope.Data).1.TunnelID
    · rw [if_pos hj, hj, h]
    · rw [if_neg hj]
  | some t =>
    rw [tunnelCloseHandler_present P envelope w t h, Tunnel_ID_eq h]
    exact Tunnel_RemoveTunnel w.conn _ j

/-- C7: for every state and every tunnel-close message naming ID `i` (the ID
the message holds after `Unmarshal`), the registry after `tunnelCloseHandler`
is the registry before with `i` removed and nothing is enqueued on `Send`. If
`i` is not registered the state is unchanged. If `i` is registered to tunnel
`t`, the calls made are `RemoveTunnel(i)`, `t.Reader.Close()`,
`t.Writer.Close()` in this order and no other; so every other ID keeps its
tunnel, and a stream of another tunnel that is not also a stream of `t` is not
closed. -/
theorem tunnelCloseHandler_frame (P : Pb) (envelope : Envelope) (w : World) (i : Nat)
    (hid : (P.unmarshalTunnelClose envelope.Data).1.TunnelID = i) :
    (∀ j, (tunnelCloseHandler P envelope w).conn.Tunnel j
        = if j = i then none else w.conn.Tunnel j) ∧
    (tunnelCloseHandler P envelope w).conn.Send = w.conn.Send ∧
    (w.conn.Tunnel i = none → tunnelCloseHandler P envelope w = w) ∧
    (∀ t, w.conn.Tunnel i = some t →
      newEvents w (tunnelCloseHandler P envelope w)
        = [Event.removeTunnel i, Event.close t.Reader, Event.close t.Writer] ∧
      ∀ j t1, j ≠ i → w.conn.Tunnel j = some t1 →
        (tunnelCloseHandler P envelope w).conn.Tunnel j = some t1 ∧
        ∀ s, (s = t1.Reader ∨ s = t1.Writer) → s ≠ t.Reader → s ≠ t.Writer →
          Event.close s ∉ newEvents w (tunnelCloseHandler P envelope w)) := by
  subst hid
  cases h : w.conn.Tunnel (P.unmarshalTunnelClose envelope.Data).1.TunnelID with
  | none =>
    rw [tunnelCloseHandler_absent P envelope w h]
    refine ⟨?_, rfl, fun _ => rfl, ?_⟩
    · intro j
      by_cases hj : j = (P.unmarshalTunnelClose envelope.Data).1.TunnelID
      · rw [if_pos hj, hj, h]
      · rw [if_neg hj]
    · intro t ht
      cases ht
  | some t =>
    have hID : t.ID = (P.unmarshalTunnelClose envelope.Data).1.TunnelID := Tunnel_ID_eq h
    rw [tunnelCloseHandler_present P envelope w t h, hID]
    refine ⟨?_, rfl, ?_, ?_⟩
    · intro j
      exact Tunnel_RemoveTunnel w.conn _ j
    · intro hn
      cases hn
    · intro t0 ht0
      cases ht0
      have hev : newEvents w
          ⟨w.conn.RemoveTunnel (P.unmarshalTunnelClose envelope.Data).1.TunnelID,
           w.trace ++ [Event.removeTunnel (P.unmarshalTunnelClose envelope.Data).1.TunnelID,
             Event.close t.Reader, Event.close t.Writer],
           w.goroutines⟩
          = [Event.removeTunnel (P.unmarshalTunnelClose envelope.Data).1.TunnelID,
             Event.close t.Reader, Event.close t.Writer] :=
        newEvents_append _ _ _ rfl
      refine ⟨hev, ?_⟩
      intro j t1 hj ht1
      refine ⟨?_, ?_⟩
      · show (w.conn.RemoveTunnel _).Tunnel j = some t1
        rw [Tunnel_RemoveTunnel, if_neg hj, ht1]
      · intro s _ hs1 hs2
        rw [hev]
        simp [hs1, hs2]

/-- Witness of C7: closing the shell tunnel 8 next to the port-forward tunnel 7. -/
theorem tunnelCloseHandler_frame_witness :
    (wirePb.unmarshalTunnelClose [8, 8]).1.TunnelID = 8 ∧
    portfwdWorld.conn.Tunnel 8 = some ⟨8, 10, 11⟩ ∧
    (tunnelCloseHandler wirePb ⟨0, 4, [8, 8]⟩ portfwdWorld).conn.Tunnel 7 = some ⟨7, 20, 20⟩ ∧
    (tunnelCloseHandler wirePb ⟨0, 4, [8, 8]⟩ portfwdWorld).conn.Tunnel 8 = none ∧
    newEvents portfwdWorld (tunnelCloseHandler wirePb ⟨0, 4, [8, 8]⟩ portfwdWorld)
      = [Event.removeTunnel 8, Event.close 10, Event.close 11] :=
  have h := tunnelCloseHandler_frame wirePb ⟨0, 4, [8, 8]⟩ portfwdWorld 8 (by decide)
  ⟨by decide, by decide, (h.1 7).trans (by decide), (h.1 8).trans (by decide),
    (h.2.2.2 ⟨8, 10, 11⟩ (by decide)).1⟩

/-! ## `tunnelDataHandler` -/

/-- C8: for every state and every tunnel-data message `m` (whatever the
message holds after `Unmarshal`), `tunnelDataHandler` returns a state, with
the registry, `Send` and the goroutines as before. If `m.TunnelID` is not
registered the state is unchanged: no writer is called. If it is registered
to tunnel `t`, the only call made is one `t.Writer.Write(m.Data)`, so the
writer of another tunnel that is not the same object receives nothing. -/
theorem tunnelDataHandler_frame (P : Pb) (envelope : Envelope) (w : World) (m : TunnelData)
    (hm : (P.unmarshalTunnelData envelope.Data).1 = m) :
    (tunnelDataHandler P envelope w).conn = w.conn ∧
    (tunnelDataHandler P envelope w).goroutines = w.goroutines ∧
    (w.conn.Tunnel m.TunnelID = none → tunnelDataHandler P envelope w = w) ∧
    (∀ t, w.conn.Tunnel m.TunnelID = some t →
      newEvents w (tunnelDataHandler P envelope w) = [Event.write t.Writer m.Data] ∧
      ∀ j t1, j ≠ m.TunnelID → w.conn.Tunnel j = some t1 → t1.Writer ≠ t.Writer →
        ∀ p, Event.write t1.Writer p ∉ newEvents w (tunnelDataHandler P envelope w)) := by
  subst hm
  cases h : w.conn.Tunnel (P.unmarshalTunnelData envelope.Data).1.TunnelID with
  | none =>
    have e : tunnelDataHandler P envelope w = w := by simp [tunnelDataHandler, h]
    rw [e]
    refine ⟨rfl, rfl, fun _ => rfl, ?_⟩
    intro t ht
    cases ht
  | some t =>
    have e : tunnelDataHandler P envelope w
        = ⟨w.conn, w.trace ++ [Event.write t.Writer (P.unmarshalTunnelData envelope.Data).1.Data],
           w.goroutines⟩ := by
      simp [tunnelDataHandler, h, World.write]
    rw [e]
    refine ⟨rfl, rfl, ?_, ?_⟩
    · intro hn
      cases hn
    · intro t0 ht0
      cases ht0
      have hev : newEvents w
          ⟨w.conn, w.trace ++ [Event.write t.Writer (P.unmarshalTunnelData envelope.Data).1.Data],
           w.goroutines⟩
          = [Event.write t.Writer (P.unmarshalTunnelData envelope.Data).1.Data] :=
        newEvents_append _ _ _ rfl
      refine ⟨hev, ?_⟩
      intro j t1 _ _ hw p
      rw [hev]
      simp [hw]

/-- Witness of C8: the bytes `ls` and a newline routed to the shell tunnel 8. -/
theorem tunnelDataHandler_frame_witness :
    (wirePb.unmarshalTunnelData [8, 8, 18, 3, 108, 115, 10]).1 = ⟨8, [108, 115, 10]⟩ ∧
    (tunnelDataHandler wirePb ⟨0, 3, [8, 8, 18, 3, 108, 115, 10]⟩ portfwdWorld).conn
      = portfwdWorld.conn ∧
    newEvents portfwdWorld
        (tunnelDataHandler wirePb ⟨0, 3, [8, 8, 18, 3, 108, 115, 10]⟩ portfwdWorld)
      = [Event.write 11 [108, 115, 10]] :=
  have h := tunnelDataHandler_frame wirePb ⟨0, 3, [8, 8, 18, 3, 108, 115, 10]⟩ portfwdWorld
    ⟨8, [108, 115, 10]⟩ (by decide)
  ⟨by decide, h.1, (h.2.2.2 ⟨8, 10, 11⟩ (by decide)).1⟩

/-! ## The goroutine of `shellReqHandler` -/

theorem sendAll_append (w : World) (es fs : List Envelope) :
    sendAll w (es ++ fs) = sendAll (sendAll w es) fs := by
  simp [sendAll, List.foldl_append]

theorem sendAll_spec (es : List Envelope) (w : World) :
    sendAll w es
      = ⟨⟨w.conn.Send ++ es, w.conn.tunnels⟩, w.trace ++ es.map Event.send, w.goroutines⟩ := by
  induction es generalizing w with
  | nil => simp [sendAll]
  | cons e es ih =>
    have h : sendAll w (e :: es) = sendAll (w.send e) es := rfl
    rw [h, ih]
    simp [World.send]

/-- Reads without `io.EOF` are each forwarded as one tunnel-data envelope,
whatever their length and whatever other error they carry. -/
theorem shellForward_append (P : Pb) (t : Tunnel) (pre rest : List ReadResult) (w : World)
    (hpre : ∀ x ∈ pre, x.err ≠ some GoError.EOF) :
    shellForward P t (pre ++ rest) w
      = shellForward P t rest (sendAll w (pre.map (fun x => dataFrame P t x.data))) := by
  induction pre generalizing w with
  | nil => rfl
  | cons x pre ih =>
    have hx : x.err ≠ some GoError.EOF := hpre x (List.mem_cons_self _ _)
    have hrest : ∀ y ∈ pre, y.err ≠ some GoError.EOF :=
      fun y hy => hpre y (List.mem_cons_of_mem _ hy)
    have step : shellForward P t (x :: (pre ++ rest)) w
        = shellForward P t (pre ++ rest) (w.send (dataFrame P t x.data)) := by
      simp [shellForward, hx, dataFrame]
    rw [List.cons_append, step, ih _ hrest]
    rfl

/-- The first read that returns `io.EOF` ends the goroutine through `cleanup`. -/
theorem shellForward_cons_EOF (P : Pb) (t : Tunnel) (r : ReadResult) (rest : List ReadResult)
    (w : World) (hr : r.err = some GoError.EOF) :
    shellForward P t (r :: rest) w = (true, shellCleanup P t "EOF" w) := by
  simp [shellForward, hr]

theorem shellCleanup_spec (P : Pb) (t : Tunnel) (reason : String) (w : World) :
    shellCleanup P t reason w
      = ⟨⟨w.conn.Send ++ [closeFrame P t reason], (w.conn.RemoveTunnel t.ID).tunnels⟩,
         w.trace ++ [Event.removeTunnel t.ID, Event.send (closeFrame P t reason)],
         w.goroutines⟩ := by
  simp [shellCleanup, World.RemoveTunnel, World.send, closeFrame, Connection.RemoveTunnel]

/-- C10: when a `Read` of the shell goroutine returns `io.EOF` (after any
reads that did not), the goroutine returns, having run `cleanup("EOF")`
once: after the tunnel-data sends of the earlier reads its calls are
`RemoveTunnel(tunnel.ID)` and then one send of the envelope of type
`MsgTunnelClose` encoding the tunnel's ID with `Err = "EOF"`; that envelope
is the last one enqueued and later read results are never consumed. -/
theorem shellForward_EOF (P : Pb) (t : Tunnel) (pre : List ReadResult) (r : ReadResult)
    (rest : List ReadResult) (w : World)
    (hpre : ∀ x ∈ pre, x.err ≠ some GoError.EOF) (hr : r.err = some GoError.EOF) :
    (shellForward P t (pre ++ r :: rest) w).1 = true ∧
    newEvents w (shellForward P t (pre ++ r :: rest) w).2
      = pre.map (fun x => Event.send (dataFrame P t x.data))
        ++ [Event.removeTunnel t.ID,
            Event.send ⟨0, P.MsgTunnelClose, (P.marshalTunnelClose ⟨t.ID, "EOF"⟩).1⟩] ∧
    newSent w (shellForward P t (pre ++ r :: rest) w).2
      = pre.map (fun x => dataFrame P t x.data)
        ++ [⟨0, P.MsgTunnelClose, (P.marshalTunnelClose ⟨t.ID, "EOF"⟩).1⟩] ∧
    (newEvents w (shellForward P t (pre ++ r :: rest) w).2).count (Event.removeTunnel t.ID) = 1 ∧
    (newSent w (shellForward P t (pre ++ r :: rest) w).2).getLast?
      = some ⟨0, P.MsgTunnelClose, (P.marshalTunnelClose ⟨t.ID, "EOF"⟩).1⟩ ∧
    (∀ j, (shellForward P t (pre ++ r :: rest) w).2.conn.Tunnel j
        = if j = t.ID then none else w.conn.Tunnel j) ∧
    (shellForward P t (pre ++ r :: rest) w).2.goroutines = w.goroutines := by
  have hres : shellForward P t (pre ++ r :: rest) w
      = (true,
         ⟨⟨w.conn.Send ++ (pre.map (fun x => dataFrame P t x.data) ++ [closeFrame P t "EOF"]),
           (w.conn.RemoveTunnel t.ID).tunnels⟩,
          w.trace ++ (pre.map (fun x => Event.send (dataFrame P t x.data))
            ++ [Event.removeTunnel t.ID, Event.send (closeFrame P t "EOF")]),
          w.goroutines⟩) := by
    rw [shellForward_append P t pre (r :: rest) w hpre, shellForward_cons_EOF P t r rest _ hr,
      shellCleanup_spec, sendAll_spec]
    simp [Connection.RemoveTunnel, List.map_map, Function.comp_def]
  have hev := newEvents_append w (shellForward P t (pre ++ r :: rest) w).2 _
    (by rw [hres])
  have hsent := newSent_append w (shellForward P t (pre ++ r :: rest) w).2 _
    (by rw [hres])
  refine ⟨by rw [hres], hev, hsent, ?_, ?_, ?_, by rw [hres]⟩
  · rw [hev, List.count_append]
    have h0 : (pre.map (fun x => Event.send (dataFrame P t x.data))).count
        (Event.removeTunnel t.ID) = 0 := by
      rw [List.count_eq_zero]
      intro hmem
      obtain ⟨x, _, hx⟩ := List.mem_map.mp hmem
      cases hx
    rw [h0]
    simp [List.count_cons]
  · rw [hsent]
    simp [closeFrame]
  · intro j
    rw [hres]
    exact Tunnel_RemoveTunnel w.conn t.ID j

/-- Witness of C10: the shell of tunnel 7 prints `ab` and then ends. -/
theorem shellForward_EOF_witness :
    (shellForward wirePb ⟨7, 10, 11⟩ [⟨[97, 98], none⟩, ⟨[], some GoError.EOF⟩] shellWorld).1
      = true ∧
    newEvents shellWorld
        (shellForward wirePb ⟨7, 10, 11⟩ [⟨[97, 98], none⟩, ⟨[], some GoError.EOF⟩] shellWorld).2
      = [Event.send ⟨0, 3, [8, 7, 18, 2, 97, 98]⟩, Event.removeTunnel 7,
         Event.send ⟨0, 4, [8, 7, 18, 3, 69, 79, 70]⟩] :=
  have h := shellForward_EOF wirePb ⟨7, 10, 11⟩ [⟨[97, 98], none⟩] ⟨[], some GoError.EOF⟩ []
    shellWorld (by decide) rfl
  ⟨h.1, h.2.1⟩

/-- A read that returns an error other than `io.EOF` with no bytes is
forwarded as an empty tunnel-data envelope and the loop goes on. -/
theorem shellForward_cons_other (P : Pb) (t : Tunnel) (msg : String) (rest : List ReadResult)
    (w : World) :
    shellForward P t (⟨[], some (GoError.other msg)⟩ :: rest) w
      = shellForward P t rest (w.send (dataFrame P t [])) := by
  simp [shellForward, dataFrame]

/-- C4, the code at the failing input: a reader whose every `Read` returns no
bytes and the same error other than `io.EOF`. After any number `k` of reads
the goroutine has not returned and `cleanup` has not run: the registry is as
before, and the calls made are `k` sends of an empty tunnel-data envelope and
nothing else. -/
theorem shellForward_read_error_never_stops (P : Pb) (t : Tunnel) (w : World) (msg : String)
    (k : Nat) :
    (shellForward P t (List.replicate k ⟨[], some (GoError.other msg)⟩) w).1 = false ∧
    (shellForward P t (List.replicate k ⟨[], some (GoError.other msg)⟩) w).2.conn.tunnels
      = w.conn.tunnels ∧
    newEvents w (shellForward P t (List.replicate k ⟨[], some (GoError.other msg)⟩) w).2
      = List.replicate k (Event.send (dataFrame P t [])) := by
  have hres : shellForward P t (List.replicate k ⟨[], some (GoError.other msg)⟩) w
      = (false, sendAll w (List.replicate k (dataFrame P t []))) := by
    induction k generalizing w with
    | zero => rfl
    | succ k ih =>
      rw [List.replicate_succ, shellForward_cons_other, ih, List.replicate_succ]
      rfl
  rw [hres, sendAll_spec]
  refine ⟨rfl, rfl, ?_⟩
  apply newEvents_append
  simp

/-- C3, the code at the failing input: the shell of tunnel 7 prints `ab`, and
its last `Read` returns the byte `c` together with `io.EOF`. The goroutine
enqueues one tunnel-data envelope carrying `ab` and the tunnel-close envelope;
the byte `c` is in no envelope, so the payloads concatenate to `ab` while the
reads returned `abc`. -/
theorem shellForward_EOF_with_bytes :
    shellForward wirePb ⟨7, 10, 11⟩ [⟨[97, 98], none⟩, ⟨[99], some GoError.EOF⟩] shellWorld
      = (true,
         ⟨⟨[⟨0, 3, [8, 7, 18, 2, 97, 98]⟩, ⟨0, 4, [8, 7, 18, 3, 69, 79, 70]⟩], []⟩,
          [Event.send ⟨0, 3, [8, 7, 18, 2, 97, 98]⟩, Event.removeTunnel 7,
           Event.send ⟨0, 4, [8, 7, 18, 3, 69, 79, 70]⟩],
          []⟩) ∧
    (tunnelDataPayloads wirePb (newSent shellWorld
        (shellForward wirePb ⟨7, 10, 11⟩ [⟨[97, 98], none⟩, ⟨[99], some GoError.EOF⟩]
          shellWorld).2)).flatten = [97, 98] ∧
    (([⟨[97, 98], none⟩, ⟨[99], some GoError.EOF⟩] : List ReadResult).map
        (fun x => x.data)).flatten = [97, 98, 99] := by
  decide

/-- C9, the code at the failing input: the first `Read` of the shell of
tunnel 7 returns no bytes and an error other than `io.EOF`. The goroutine
enqueues a tunnel-data envelope whose message has an empty `Data`, and goes
on to the next `Read`. -/
theorem shellForward_empty_frame :
    shellForward wirePb ⟨7, 10, 11⟩ [⟨[], some (GoError.other "file already closed")⟩]
        shellWorld
      = (false, ⟨⟨[⟨0, 3, [8, 7]⟩], [⟨7, 10, 11⟩]⟩, [Event.send ⟨0, 3, [8, 7]⟩], []⟩) ∧
    tunnelDataPayloads wirePb (newSent shellWorld
        (shellForward wirePb ⟨7, 10, 11⟩ [⟨[], some (GoError.other "file already closed")⟩]
          shellWorld).2) = [[]] ∧
    shellForward wirePb ⟨7, 10, 11⟩ [⟨[], none⟩] shellWorld
      = (false, ⟨⟨[⟨0, 3, [8, 7]⟩], [⟨7, 10, 11⟩]⟩, [Event.send ⟨0, 3, [8, 7]⟩], []⟩) := by
  decide

/-! ## Decode failures -/

/-- The handler `shellReqHandler` returns at once when `Unmarshal` fails. -/
theorem shellReqHandler_decode_error (P : Pb) (E : Env) (envelope : Envelope) (w : World)
    (e : GoError) (h : (P.unmarshalShellReq envelope.Data).2 = some e) :
    shellReqHandler P E envelope w = w := by
  simp [shellReqHandler, h]

/-- The handler `portfwdHandler` returns at once when `Unmarshal` fails. -/
theorem portfwdHandler_decode_error (P : Pb) (E : Env) (envelope : Envelope) (w : World)
    (e : GoError) (h : (P.unmarshalPortFwdReq envelope.Data).2 = some e) :
    portfwdHandler P E envelope w = w := by
  simp [portfwdHandler, h]

/-- C1, the code at the failing inputs. The payload `08 07 ff` fails to decode
as a tunnel-close message after its ID field was read, and
`tunnelCloseHandler` removes tunnel 7 and closes both its streams. The
payload `08 07 12 01 61 ff` fails to decode as a tunnel-data message after
both fields were read, and `tunnelDataHandler` writes the byte to the writer
of tunnel 7. The payload `ff` fails to decode at its first byte, leaving the
zero ID in the message, and `tunnelCloseHandler` removes tunnel 0. -/
theorem handlers_decode_failure :
    (wirePb.unmarshalTunnelClose [8, 7, 255]).2 = some (GoError.other "unexpected EOF") ∧
    tunnelCloseHandler wirePb ⟨0, 4, [8, 7, 255]⟩ shellWorld
      = ⟨⟨[], []⟩, [Event.removeTunnel 7, Event.close 10, Event.close 11], []⟩ ∧
    (wirePb.unmarshalTunnelData [8, 7, 18, 1, 97, 255]).2
      = some (GoError.other "unexpected EOF") ∧
    tunnelDataHandler wirePb ⟨0, 3, [8, 7, 18, 1, 97, 255]⟩ shellWorld
      = ⟨⟨[], [⟨7, 10, 11⟩]⟩, [Event.write 11 [97]], []⟩ ∧
    (wirePb.unmarshalTunnelClose [255]).2 = some (GoError.other "unexpected EOF") ∧
    tunnelCloseHandler wirePb ⟨0, 4, [255]⟩ ⟨⟨[], [⟨0, 10, 11⟩]⟩, [], []⟩
      = ⟨⟨[], []⟩, [Event.removeTunnel 0, Event.close 10, Event.close 11], []⟩ := by
  decide

/-! ## Closing a tunnel twice -/

/-- A second tunnel-close message for the same ID changes nothing: the
registry removal and the two `Close` calls happen once. -/
theorem tunnelCloseHandler_idem (P : Pb) (envelope : Envelope) (w : World) :
    tunnelCloseHandler P envelope (tunnelCloseHandler P envelope w)
      = tunnelCloseHandler P envelope w := by
  apply tunnelCloseHandler_absent
  rw [tunnelCloseHandler_Tunnel, if_pos rfl]

/-- The number of `RemoveTunnel` and `Close` calls among the three calls of a
close. -/
theorem count_close_calls (i r wr : Nat) :
    (∀ j, ([Event.removeTunnel i, Event.close r, Event.close wr]).count (Event.removeTunnel j)
        = if j = i then 1 else 0) ∧
    (∀ s, ([Event.removeTunnel i, Event.close r, Event.close wr]).count (Event.close s)
        = (if s = r then 1 else 0) + (if s = wr then 1 else 0)) := by
  constructor
  · intro j
    by_cases h : j = i
    · subst h
      simp [List.count_cons]
    · have h2 : ¬ i = j := fun e => h e.symm
      simp [List.count_cons, h, h2]
  · intro s
    by_cases h1 : s = r <;> by_cases h2 : s = wr
    · subst h1
      subst h2
      simp [List.count_cons]
    · subst h1
      have h3 : ¬ wr = s := fun e => h2 e.symm
      simp [List.count_cons, h2, h3]
    · subst h2
      have h3 : ¬ r = s := fun e => h1 e.symm
      simp [List.count_cons, h1, h3]
    · have h3 : ¬ r = s := fun e => h1 e.symm
      have h4 : ¬ wr = s := fun e => h2 e.symm
      simp [List.count_cons, h1, h2, h3, h4]

/-- C2, counterexample: tunnel 0 is a port forward whose reader and writer
are the same socket 20, and the empty payload is a tunnel-close message for
ID 0 (it decodes without error). Handling that message twice in sequence
makes one registry removal, but the socket receives two `Close` calls (both
from the first message), so it is not true that each distinct stream object
is closed at most once. -/
theorem tunnelCloseHandler_twice_same_socket :
    wirePb.unmarshalTunnelClose [] = (⟨0, ""⟩, none) ∧
    socketWorld.conn.Tunnel 0 = some ⟨0, 20, 20⟩ ∧
    newEvents socketWorld (tunnelCloseHandler wirePb ⟨0, wirePb.MsgTunnelClose, []⟩
        (tunnelCloseHandler wirePb ⟨0, wirePb.MsgTunnelClose, []⟩ socketWorld))
      = [Event.removeTunnel 0, Event.close 20, Event.close 20] ∧
    ¬ (∀ s, (newEvents socketWorld (tunnelCloseHandler wirePb ⟨0, wirePb.MsgTunnelClose, []⟩
        (tunnelCloseHandler wirePb ⟨0, wirePb.MsgTunnelClose, []⟩ socketWorld))).count
          (Event.close s) ≤ 1) := by
  refine ⟨by decide, by decide, by decide, ?_⟩
  intro h
  exact absurd (h 20) (by decide)

/-- C2, as amended: for every state and every registered tunnel ID, with
tunnel `t`, handling two tunnel-close messages for that ID in sequence makes
exactly one registry removal, one `Close` call on `t.Reader` and then one on
`t.Writer`, all of them by the first message; the second message makes no
call and changes nothing. Hence a stream object receives at most one `Close`
call when `t.Reader` and `t.Writer` are distinct objects (a shell tunnel),
and receives both calls when they are the same socket (a port-forward
tunnel). -/
theorem tunnelCloseHandler_twice (P : Pb) (envelope : Envelope) (w : World) (t : Tunnel)
    (h : w.conn.Tunnel (P.unmarshalTunnelClose envelope.Data).1.TunnelID = some t) :
    newEvents w (tunnelCloseHandler P envelope (tunnelCloseHandler P envelope w))
      = [Event.removeTunnel t.ID, Event.close t.Reader, Event.close t.Writer] ∧
    newEvents w (tunnelCloseHandler P envelope w)
      = [Event.removeTunnel t.ID, Event.close t.Reader, Event.close t.Writer] ∧
    tunnelCloseHandler P envelope (tunnelCloseHandler P envelope w)
      = tunnelCloseHandler P envelope w ∧
    (∀ j, (newEvents w (tunnelCloseHandler P envelope (tunnelCloseHandler P envelope w))).count
        (Event.removeTunnel j) = if j = t.ID then 1 else 0) ∧
    (∀ s, (newEvents w (tunnelCloseHandler P envelope (tunnelCloseHandler P envelope w))).count
        (Event.close s) = (if s = t.Reader then 1 else 0) + (if s = t.Writer then 1 else 0)) ∧
    (t.Reader ≠ t.Writer →
      ∀ s, (newEvents w (tunnelCloseHandler P envelope (tunnelCloseHandler P envelope w))).count
        (Event.close s) ≤ 1) ∧
    (t.Reader = t.Writer →
      (newEvents w (tunnelCloseHandler P envelope (tunnelCloseHandler P envelope w))).count
        (Event.close t.Reader) = 2) ∧
    (tunnelCloseHandler P envelope (tunnelCloseHandler P envelope w)).conn.Tunnel t.ID
      = none := by
  have hev : newEvents w (tunnelCloseHandler P envelope w)
      = [Event.removeTunnel t.ID, Event.close t.Reader, Event.close t.Writer] := by
    rw [tunnelCloseHandler_present P envelope w t h]
    exact newEvents_append w _ _ rfl
  have hc := count_close_calls t.ID t.Reader t.Writer
  rw [tunnelCloseHandler_idem, hev]
  refine ⟨rfl, rfl, rfl, hc.1, hc.2, ?_, ?_, ?_⟩
  · intro hne s
    rw [hc.2 s]
    by_cases h1 : s = t.Reader
    · have h2 : ¬ s = t.Writer := fun e => hne (h1.symm.trans e)
      rw [if_pos h1, if_neg h2]
    · rw [if_neg h1]
      by_cases h2 : s = t.Writer
      · rw [if_pos h2]
      · rw [if_neg h2]
        exact Nat.zero_le _
  · intro heq
    rw [hc.2 t.Reader, ← heq]
    simp
  · rw [tunnelCloseHandler_Tunnel, Tunnel_ID_eq h, if_pos rfl]

/-- Witness of C2 as amended: the shell tunnel 0, with streams 10 and 11,
closed by two messages with the empty payload. -/
theorem tunnelCloseHandler_twice_witness :
    shellZeroWorld.conn.Tunnel (wirePb.unmarshalTunnelClose []).1.TunnelID = some ⟨0, 10, 11⟩ ∧
    newEvents shellZeroWorld (tunnelCloseHandler wirePb ⟨0, wirePb.MsgTunnelClose, []⟩
        (tunnelCloseHandler wirePb ⟨0, wirePb.MsgTunnelClose, []⟩ shellZeroWorld))
      = [Event.removeTunnel 0, Event.close 10, Event.close 11] ∧
    (∀ s, (newEvents shellZeroWorld (tunnelCloseHandler wirePb ⟨0, wirePb.MsgTunnelClose, []⟩
        (tunnelCloseHandler wirePb ⟨0, wirePb.MsgTunnelClose, []⟩ shellZeroWorld))).count
          (Event.close s) ≤ 1) :=
  have h := tunnelCloseHandler_twice wirePb ⟨0, wirePb.MsgTunnelClose, []⟩ shellZeroWorld
    ⟨0, 10, 11⟩ (by decide)
  ⟨by decide, h.1, h.2.2.2.2.2.1 (by decide)⟩

/-! ## The goroutine of `portfwdHandler` -/

/-- The copy loop of the port-forward goroutine ends on any read error,
`io.EOF` or not. -/
theorem copyLoop_read_error (P : Pb) (d : dataWrapper) (r : ReadResult) (rest : List ReadResult)
    (w : World) (e : GoError) (h : r.err = some e) :
    (copyLoop P d (r :: rest) w).1 = true := by
  unfold copyLoop
  by_cases h0 : r.data.length = 0
  · simp [h0, h]
  · by_cases h1 : ((d.Write P r.data w).1.2).isSome = true
    · simp [h0, h1]
    · by_cases h2 : (d.Write P r.data w).1.1 = r.data.length
      · simp [h0, h1, h2, h]
      · simp [h0, h1, h2]

/-- The port-forward goroutine on a first read that returns an error: it
returns, and it ends with `cleanup`, whose calls are `RemoveTunnel`, one send
of the tunnel-close envelope with reason `"Error"`, and one `conn.Close()`. -/
theorem portfwdForward_read_error (P : Pb) (t : Tunnel) (conn : Nat) (r : ReadResult)
    (rest : List ReadResult) (w : World) (e : GoError) (h : r.err = some e) :
    (portfwdForward P t conn (r :: rest) w).1 = true ∧
    (portfwdForward P t conn (r :: rest) w).2.trace
      = (copyLoop P ⟨t⟩ (r :: rest) w).2.trace
        ++ [Event.removeTunnel t.ID, Event.send (closeFrame P t "Error"), Event.close conn] := by
  have h1 := copyLoop_read_error P ⟨t⟩ r rest w e h
  simp [portfwdForward, h1, portfwdCleanup, World.RemoveTunnel, World.send, World.close,
    closeFrame]

/-- The port-forward goroutine forwards the bytes that a read returns together
with `io.EOF` before it stops, and forwards nothing for a read of no bytes. -/
theorem portfwdForward_examples :
    portfwdForward wirePb ⟨7, 20, 20⟩ 20 [⟨[97, 98], none⟩, ⟨[99], some GoError.EOF⟩]
        portfwdWorld
      = (true,
         ⟨⟨[⟨0, 3, [8, 7, 18, 2, 97, 98]⟩, ⟨0, 3, [8, 7, 18, 1, 99]⟩,
            ⟨0, 4, [8, 7, 18, 5, 69, 114, 114, 111, 114]⟩], [⟨8, 10, 11⟩]⟩,
          [Event.send ⟨0, 3, [8, 7, 18, 2, 97, 98]⟩, Event.send ⟨0, 3, [8, 7, 18, 1, 99]⟩,
           Event.removeTunnel 7, Event.send ⟨0, 4, [8, 7, 18, 5, 69, 114, 114, 111, 114]⟩,
           Event.close 20],
          []⟩) ∧
    portfwdForward wirePb ⟨7, 20, 20⟩ 20 [⟨[], none⟩] portfwdWorld = (false, portfwdWorld) := by
  decide

/-! ## The handlers on well-formed requests -/

/-- The wire-format instance decodes what it encodes, on sample messages, and
the two open handlers register the tunnel, acknowledge and start their
goroutine. -/
theorem wirePb_examples :
    wirePb.unmarshalTunnelData (wirePb.marshalTunnelData ⟨300, [97, 98]⟩).1
      = (⟨300, [97, 98]⟩, none) ∧
    wirePb.unmarshalTunnelClose (wirePb.marshalTunnelClose ⟨7, "EOF"⟩).1 = (⟨7, "EOF"⟩, none) ∧
    shellReqHandler wirePb sampleEnv ⟨5, 1, [16, 7]⟩ emptyWorld
      = ⟨⟨[⟨5, 0, [8, 1]⟩], [⟨7, 10, 11⟩]⟩,
         [Event.addTunnel ⟨7, 10, 11⟩, Event.send ⟨5, 0, [8, 1]⟩],
         [Goroutine.shell ⟨7, 10, 11⟩]⟩ ∧
    portfwdHandler wirePb sampleEnv ⟨5, 2, [24, 7]⟩ emptyWorld
      = ⟨⟨[⟨5, 0, [8, 1]⟩], [⟨7, 20, 20⟩]⟩,
         [Event.addTunnel ⟨7, 20, 20⟩, Event.send ⟨5, 0, [8, 1]⟩],
         [Goroutine.portfwd ⟨7, 20, 20⟩ 20]⟩ ∧
    shellReqHandler wirePb sampleEnv ⟨5, 1, [16]⟩ emptyWorld = emptyWorld ∧
    portfwdHandler wirePb sampleEnv ⟨5, 2, [255]⟩ emptyWorld = emptyWorld := by
  decide

end Sliver
